import Mathlib

/-!
Shallow embedding of `libcef/browser/frame_host_impl.cc` (class
`CefFrameHostImpl`): the browser-process frame handle with its pending-action
queue, attachment protocol, detach semantics, identity sentinels and
navigation routing.  State is explicit; the renderer peer and the owning
browser are modelled by traces of the calls made on them.
-/

namespace Cef

/-- Modelled from the spec: `frame_util::MakeFrameId` (external collaborator,
not part of this file) packs a (process-id, routing-id) pair of 32-bit values
into one 64-bit frame id; deterministic, collision-free across live frames,
and real packed ids are non-negative (disjoint from the negative sentinel
range). -/
def MakeFrameId (render_process_id render_routing_id : Nat) : Int :=
  Int.ofNat ((render_process_id % 4294967296) * 4294967296 +
    render_routing_id % 4294967296)

/-- Sentinel: the id a main frame reports through `GetFrameId`
(`kMainFrameId` must be -1 to align with renderer expectations). -/
def kMainFrameId : Int := -1

/-- Sentinel for the focused frame. -/
def kFocusedFrameId : Int := -2

/-- Sentinel for an unspecified frame. -/
def kUnspecifiedFrameId : Int := -3

/-- Sentinel used before a real frame id is bound. -/
def kInvalidFrameId : Int := -4

/-- Modelled from the spec: `ui::PageTransition` constant
(TT_EXPLICIT | TT_DIRECT_LOAD_FLAG); the numeric value is owned by the
embedding engine and is opaque to this component. -/
def kPageTransitionExplicit : Nat := 33554433

/-- Embedding of `content::RenderFrameHost` as seen by this file: process and
routing ids, the last committed URL and frame name that `SetRenderFrameHost`
snapshots, the parent frame's (process-id, routing-id) pair (`none` for a main
frame), and whether `GetRemoteInterfaces()` yields a usable interface provider
(the condition for the lazy peer-connection bind in `GetRenderFrame`). -/
structure RenderFrameHost where
  process_id : Nat
  routing_id : Nat
  last_committed_url : String
  frame_name : String
  parent : Option (Nat × Nat)
  hasRemoteInterfaces : Bool
  deriving DecidableEq

/-- Embedding of `CefBrowserInfo`: holds the possibly-null owning browser
(browsers are identified by a number). -/
structure BrowserInfo where
  browser : Option Nat
  deriving DecidableEq

/-- Embedding of `cef::mojom::RequestParams` as built by `LoadURLWithExtras`:
URL, referrer URL and extra headers. -/
structure RequestParams where
  url : String
  referrer : String
  headers : String
  deriving DecidableEq

/-- The deferred-operation closures passed to `SendToRenderFrame`, as a tagged
variant: each constructor records which `cef::mojom::RenderFrame` method the
closure would invoke on the peer, with its captured arguments. -/
inductive Action where
  | sendMessage (message_name : String)
  | moveOrResizeStarted
  | loadRequest (params : RequestParams)
  | sendCommand (command : String)
  | sendCommandWithResponse (command : String)
  | sendJavaScript (jsCode : String) (scriptUrl : String) (startLine : Int)
  | didStopLoading
  deriving DecidableEq

/-- Calls made on the owning browser (`CefBrowserHostBase`) by the operations
of this file. -/
inductive BrowserCall where
  | loadMainFrameURL (url referrer : String) (transition : Nat)
      (extra_headers : String)
  | onSetFocus
  | onDidFinishLoad (validated_url : String) (http_status_code : Nat)
  deriving DecidableEq

/-- Observable effect of one operation: `issued` are the actions passed into
the `SendToRenderFrame` choke point, `delivered` those actually run against a
resolved peer connection, `browserCalls` the calls made on the owning
browser. -/
structure Effect where
  issued : List Action := []
  delivered : List Action := []
  browserCalls : List BrowserCall := []
  deriving DecidableEq

/-- Embedding of the mutable state of `CefFrameHostImpl`.
`render_frame_bound` models whether the `mojo::Remote<cef::mojom::RenderFrame>`
`render_frame_` is bound. -/
structure FrameState where
  is_main_frame : Bool
  frame_id : Int
  parent_frame_id : Int
  browser_info : Option BrowserInfo
  is_focused : Bool
  url : String
  name : String
  render_frame_host : Option RenderFrameHost
  render_frame_bound : Bool
  is_attached : Bool
  queued_actions : List Action
  deriving DecidableEq

/-- The pre-binding constructor: owning browser, main-frame flag, parent id.
The frame id starts at `kInvalidFrameId`; the main frame starts focused. -/
def mkPreBinding (bi : BrowserInfo) (is_main_frame : Bool)
    (parent_frame_id : Int) : FrameState :=
  { is_main_frame := is_main_frame
    frame_id := kInvalidFrameId
    parent_frame_id := parent_frame_id
    browser_info := some bi
    is_focused := is_main_frame
    url := ""
    name := ""
    render_frame_host := none
    render_frame_bound := false
    is_attached := false
    queued_actions := [] }

/-- `CefFrameHostImpl::SetRenderFrameHost`: fails fatally (`CHECK`) when the
handle is detached (modelled as `none`); otherwise resets the peer connection,
records the host, derives the frame id and snapshots URL and name. -/
def SetRenderFrameHost (s : FrameState) (host : RenderFrameHost) :
    Option FrameState :=
  match s.browser_info with
  | none => none
  | some _ =>
    some { s with
      render_frame_bound := false
      render_frame_host := some host
      frame_id := MakeFrameId host.process_id host.routing_id
      url := host.last_committed_url
      name := host.frame_name }

/-- The bound constructor: derives `is_main_frame` (no parent) and
`parent_frame_id` from the host, then performs the `SetRenderFrameHost`
binding (which always succeeds here since `browser_info` is set). -/
def mkBound (bi : BrowserInfo) (host : RenderFrameHost) : FrameState :=
  { is_main_frame := host.parent.isNone
    frame_id := MakeFrameId host.process_id host.routing_id
    parent_frame_id :=
      match host.parent with
      | none => kInvalidFrameId
      | some p => MakeFrameId p.1 p.2
    browser_info := some bi
    is_focused := host.parent.isNone
    url := host.last_committed_url
    name := host.frame_name
    render_frame_host := some host
    render_frame_bound := false
    is_attached := false
    queued_actions := [] }

/-- `CefFrameHostImpl::GetBrowserHostBase`: resolves the owning browser
through `browser_info_`, null when detached or the browser is gone. -/
def GetBrowserHostBase (s : FrameState) : Option Nat :=
  match s.browser_info with
  | some bi => bi.browser
  | none => none

/-- `CefFrameHostImpl::IsValid`: true iff the owning browser resolves. -/
def IsValid (s : FrameState) : Bool :=
  (GetBrowserHostBase s).isSome

/-- `CefFrameHostImpl::GetIdentifier`: returns `frame_id_` as recorded. -/
def GetIdentifier (s : FrameState) : Int :=
  s.frame_id

/-- `CefFrameHostImpl::GetFrameId` (internal): the main frame reports the
`kMainFrameId` sentinel, others their recorded frame id. -/
def GetFrameId (s : FrameState) : Int :=
  if s.is_main_frame then kMainFrameId else s.frame_id

/-- `CefFrameHostImpl::GetURL`: the snapshotted committed URL. -/
def GetURL (s : FrameState) : String :=
  s.url

/-- `CefFrameHostImpl::GetName`: the snapshotted frame name. -/
def GetName (s : FrameState) : String :=
  s.name

/-- `CefFrameHostImpl::IsFocused`. -/
def IsFocused (s : FrameState) : Bool :=
  s.is_focused

/-- `CefFrameHostImpl::IsMain`. -/
def IsMain (s : FrameState) : Bool :=
  s.is_main_frame

/-- `CefFrameHostImpl::SetFocused`. -/
def SetFocused (s : FrameState) (focused : Bool) : FrameState :=
  { s with is_focused := focused }

/-- `CefFrameHostImpl::GetRenderFrame`: lazily binds the peer connection when
it is unbound, a frame host is present and its remote-interface provider is
available; returns the updated state and whether the connection is bound. -/
def GetRenderFrame (s : FrameState) : FrameState × Bool :=
  let canBind :=
    match s.render_frame_host with
    | some host => host.hasRemoteInterfaces
    | none => false
  let b := s.render_frame_bound || canBind
  ({ s with render_frame_bound := b }, b)

/-- `CefFrameHostImpl::SendToRenderFrame` (UI-thread body): drop when no frame
host is bound (placeholder or detached); queue when not yet attached; when
attached, resolve the peer connection and run the action against it, dropping
the action when the connection did not resolve. -/
def SendToRenderFrame (s : FrameState) (action : Action) :
    FrameState × Effect :=
  match s.render_frame_host with
  | none => (s, { issued := [action] })
  | some _ =>
    if s.is_attached then
      let sb := GetRenderFrame s
      (sb.1, { issued := [action]
               delivered := if sb.2 then [action] else [] })
    else
      ({ s with queued_actions := s.queued_actions ++ [action] },
       { issued := [action] })

/-- `CefFrameHostImpl::FrameAttached`: on the first call, mark attached,
resolve the peer connection once, and drain the queue in FIFO order, running
each action iff the connection resolved; later calls are no-ops. -/
def FrameAttached (s : FrameState) : FrameState × Effect :=
  if s.is_attached then (s, {})
  else
    let sb := GetRenderFrame { s with is_attached := true }
    ({ sb.1 with queued_actions := [] },
     { delivered := if sb.2 then sb.1.queued_actions else [] })

/-- `CefFrameHostImpl::Detach`: clears the owning-browser reference, discards
all queued actions without delivering them, releases the peer connection and
clears the frame-host pointer. -/
def Detach (s : FrameState) : FrameState × Effect :=
  ({ s with
      browser_info := none
      queued_actions := []
      render_frame_bound := false
      render_frame_host := none }, {})

/-- `CefFrameHostImpl::SendCommand`: fire-and-forget named command through the
dispatch core. -/
def SendCommand (s : FrameState) (command : String) : FrameState × Effect :=
  SendToRenderFrame s (Action.sendCommand command)

/-- `CefFrameHostImpl::SendCommandWithResponse`: named command with an
out-of-band response callback, through the dispatch core. -/
def SendCommandWithResponse (s : FrameState) (command : String) :
    FrameState × Effect :=
  SendToRenderFrame s (Action.sendCommandWithResponse command)

/-- `CefFrameHostImpl::SendJavaScript`: an empty script body is never
dispatched; a start line ≤ 0 is replaced by 1 (0 is V8's no-line-info value,
asserted on by engine internals); the action then goes through the dispatch
core. -/
def SendJavaScript (s : FrameState) (jsCode scriptUrl : String)
    (startLine : Int) : FrameState × Effect :=
  if jsCode = "" then (s, {})
  else
    let line := if startLine ≤ 0 then 1 else startLine
    SendToRenderFrame s (Action.sendJavaScript jsCode scriptUrl line)

/-- `CefFrameHostImpl::ExecuteJavaScript`: forwards to `SendJavaScript`. -/
def ExecuteJavaScript (s : FrameState) (jsCode scriptUrl : String)
    (startLine : Int) : FrameState × Effect :=
  SendJavaScript s jsCode scriptUrl startLine

/-- `CefFrameHostImpl::LoadRequest(RequestParamsPtr)`.  `url_util::FixupGURL`
is an external collaborator (not in this file) and is passed as the `fixup`
parameter: `none` means the URL is invalid and the navigation is dropped,
`some u` the normalized URL.  On success the request is dispatched and the
browser, when live, is asked to shift focus. -/
def LoadRequestParams (fixup : String → Option String) (s : FrameState)
    (params : RequestParams) : FrameState × Effect :=
  match fixup params.url with
  | none => (s, {})
  | some u =>
    let se := SendToRenderFrame s (Action.loadRequest { params with url := u })
    let focus : List BrowserCall :=
      match GetBrowserHostBase se.1 with
      | some _ => [BrowserCall.onSetFocus]
      | none => []
    (se.1, { se.2 with browserCalls := se.2.browserCalls ++ focus })

/-- `CefFrameHostImpl::LoadURLWithExtras`: rejects frame ids below
`kMainFrameId`; routes `kMainFrameId` through the browser's navigation
controller (`LoadMainFrameURL`) when the browser is live; routes known
non-main frame ids through the dispatch core as a request payload. -/
def LoadURLWithExtras (fixup : String → Option String) (s : FrameState)
    (url referrer : String) (transition : Nat) (extra_headers : String) :
    FrameState × Effect :=
  let frame_id := GetFrameId s
  if frame_id < kMainFrameId then (s, {})
  else if frame_id = kMainFrameId then
    match GetBrowserHostBase s with
    | some _ =>
      (s, { browserCalls :=
              [BrowserCall.loadMainFrameURL url referrer transition
                extra_headers] })
    | none => (s, {})
  else
    LoadRequestParams fixup s
      { url := url, referrer := referrer, headers := extra_headers }

/-- `CefFrameHostImpl::LoadURL`: `LoadURLWithExtras` with an empty referrer,
the explicit page transition and no extra headers. -/
def LoadURL (fixup : String → Option String) (s : FrameState) (url : String) :
    FrameState × Effect :=
  LoadURLWithExtras fixup s url "" kPageTransitionExplicit ""

/-- The condition tested by `MaybeSendDidStopLoading`: the frame host has a
parent and the parent lives in the same renderer process. -/
def sameProcessAsParent (host : RenderFrameHost) : Bool :=
  match host.parent with
  | some p => p.1 == host.process_id
  | none => false

/-- `CefFrameHostImpl::MaybeSendDidStopLoading`: no-op without a frame host;
suppressed when the frame's parent is in the same renderer process (the
notification is sent via the parent instead); otherwise dispatches
`DidStopLoading` through the dispatch core. -/
def MaybeSendDidStopLoading (s : FrameState) : FrameState × Effect :=
  match s.render_frame_host with
  | none => (s, {})
  | some host =>
    if sameProcessAsParent host then (s, {})
    else SendToRenderFrame s Action.didStopLoading

/-- `CefFrameHostImpl::DidFinishFrameLoad`: forwards `OnDidFinishLoad` to the
owning browser whenever it is live. -/
def DidFinishFrameLoad (s : FrameState) (validated_url : String)
    (http_status_code : Nat) : FrameState × Effect :=
  match GetBrowserHostBase s with
  | some _ =>
    (s, { browserCalls :=
            [BrowserCall.onDidFinishLoad validated_url http_status_code] })
  | none => (s, {})

/-- `CefFrameHostImpl::RefreshAttributes`: re-reads URL and name from the
frame host (preferring the assigned DOM name, falling back to the frame-tree
unique name, an external lookup passed as `unique_name`), and re-derives the
parent frame id for non-main frames. -/
def RefreshAttributes (s : FrameState) (unique_name : String) : FrameState :=
  match s.render_frame_host with
  | none => s
  | some host =>
    { s with
      url := host.last_committed_url
      name := if host.frame_name = "" then unique_name else host.frame_name
      parent_frame_id :=
        if s.is_main_frame then s.parent_frame_id
        else
          match host.parent with
          | some p => MakeFrameId p.1 p.2
          | none => s.parent_frame_id }

/-- The state-mutating operations of the handle, for reachability. -/
inductive Op where
  | sendToRenderFrame (action : Action)
  | frameAttached
  | detach
  | setRenderFrameHost (host : RenderFrameHost)
  | setFocused (focused : Bool)
  | refreshAttributes (unique_name : String)

/-- Apply one operation; `none` models the fatal `CHECK` failure of
`SetRenderFrameHost` on a detached handle. -/
def applyOp (s : FrameState) : Op → Option (FrameState × Effect)
  | Op.sendToRenderFrame action => some (SendToRenderFrame s action)
  | Op.frameAttached => some (FrameAttached s)
  | Op.detach => some (Detach s)
  | Op.setRenderFrameHost host =>
    (SetRenderFrameHost s host).map (fun s1 => (s1, {}))
  | Op.setFocused focused => some (SetFocused s focused, {})
  | Op.refreshAttributes unique_name =>
    some (RefreshAttributes s unique_name, {})

/-- Run a sequence of operations; `none` when one of them crashes. -/
def runOps : FrameState → List Op → Option FrameState
  | s, [] => some s
  | s, op :: rest =>
    match applyOp s op with
    | none => none
    | some se => runOps se.1 rest

/-- States reachable from either constructor by the operations. -/
inductive Reachable : FrameState → Prop
  | preBinding (bi : BrowserInfo) (is_main_frame : Bool)
      (parent_frame_id : Int) :
      Reachable (mkPreBinding bi is_main_frame parent_frame_id)
  | bound (bi : BrowserInfo) (host : RenderFrameHost) :
      Reachable (mkBound bi host)
  | step {s s1 : FrameState} {e : Effect} {op : Op} :
      Reachable s → applyOp s op = some (s1, e) → Reachable s1

/-- The queue/attachment invariant: `queued_actions` is non-empty only while
`is_attached` is false. -/
def QueueInvariant (s : FrameState) : Prop :=
  s.is_attached = true → s.queued_actions = []

/-- Issue a list of actions through `SendToRenderFrame`, in order, collecting
the delivered trace. -/
def sendAll : FrameState → List Action → FrameState × List Action
  | s, [] => (s, [])
  | s, action :: rest =>
    let se := SendToRenderFrame s action
    let tail := sendAll se.1 rest
    (tail.1, se.2.delivered ++ tail.2)

/-- Sample owning browser. -/
def biC : BrowserInfo := { browser := some 0 }

/-- Sample main-frame render frame host (process 1, routing 2). -/
def hostMain : RenderFrameHost :=
  { process_id := 1
    routing_id := 2
    last_committed_url := "https://example.com/"
    frame_name := ""
    parent := none
    hasRemoteInterfaces := true }

/-- Sample sub-frame host whose parent lives in a different process. -/
def hostSub : RenderFrameHost :=
  { process_id := 3
    routing_id := 7
    last_committed_url := "https://example.com/sub"
    frame_name := "sub"
    parent := some (1, 2)
    hasRemoteInterfaces := true }

/-- Sample sub-frame host sharing its parent's renderer process. -/
def hostSubSame : RenderFrameHost :=
  { process_id := 1
    routing_id := 9
    last_committed_url := "https://example.com/inner"
    frame_name := "inner"
    parent := some (1, 2)
    hasRemoteInterfaces := true }

/-- Sample sub-frame host whose remote-interface provider is unavailable, so
the peer connection can never resolve. -/
def hostNoPeer : RenderFrameHost :=
  { process_id := 3
    routing_id := 8
    last_committed_url := "https://example.com/dead"
    frame_name := "dead"
    parent := some (1, 2)
    hasRemoteInterfaces := false }

/-- Sample bound main-frame handle. -/
def sMainBound : FrameState := mkBound biC hostMain

/-- Sample bound sub-frame handle. -/
def sSubBound : FrameState := mkBound biC hostSub

/-- Sample bound handle for the same-process sub-frame. -/
def sSubSameBound : FrameState := mkBound biC hostSubSame

/-- Sample attached handle whose peer connection cannot resolve. -/
def sNoPeerAttached : FrameState :=
  { mkBound biC hostNoPeer with is_attached := true }

/-- Sample detached handle. -/
def sDetached : FrameState := (Detach sSubBound).1

/-- The detached handle after a further (no-op) attach notification. -/
def sDetachedStepped : FrameState := { sDetached with is_attached := true }

/-- Sample URL-normalization function standing in for `url_util::FixupGURL`:
rejects the empty string, keeps every other URL unchanged. -/
def fixupC (u : String) : Option String :=
  if u = "" then none else some u

/-- Sample queued actions. -/
def actionsC : List Action :=
  [Action.sendCommand "Copy",
   Action.sendJavaScript "1+1" "about:blank" 1,
   Action.didStopLoading]

/-- Sample pre-binding main-frame handle. -/
def sPreMain : FrameState := mkPreBinding biC true kInvalidFrameId

/-- The pre-binding main-frame handle after binding to `hostMain`. -/
def sMainRebound : FrameState :=
  (SetRenderFrameHost sPreMain hostMain).getD sPreMain

/-- The detached-state predicate preserved by every operation after
`Detach`. -/
def detachedState (s : FrameState) : Prop :=
  s.browser_info = none ∧ s.render_frame_host = none ∧
    s.render_frame_bound = false

theorem issued_sendToRenderFrame (s : FrameState) (a : Action) :
    (SendToRenderFrame s a).2.issued = [a] := by
  unfold SendToRenderFrame
  cases h : s.render_frame_host with
  | none => rfl
  | some host =>
    by_cases ha : s.is_attached <;> simp [ha]

theorem sendToRenderFrame_unattached (s : FrameState) (r : RenderFrameHost)
    (a : Action) (h1 : s.render_frame_host = some r)
    (h2 : s.is_attached = false) :
    SendToRenderFrame s a =
      ({ s with queued_actions := s.queued_actions ++ [a] },
       { issued := [a] }) := by
  simp [SendToRenderFrame, h1, h2]

theorem attached_after_frameAttached (s : FrameState) :
    (FrameAttached s).1.is_attached = true := by
  unfold FrameAttached GetRenderFrame
  by_cases h : s.is_attached <;> simp [h]

/-- Claim C3: `FrameAttached` is idempotent — after any first call the queue
is drained (empty when the call performed the false→true transition), and a
second call returns the state unchanged with no deliveries, no issued actions
and no browser calls. -/
theorem frameAttached_idempotent (s : FrameState) :
    FrameAttached (FrameAttached s).1 = ((FrameAttached s).1, ({} : Effect)) ∧
    (s.is_attached = false → (FrameAttached s).1.queued_actions = []) := by
  constructor
  · have h := attached_after_frameAttached s
    set t := (FrameAttached s).1 with ht
    simp [FrameAttached, h]
  · intro h
    simp [FrameAttached, h]

/-- Witness for C3 at a concrete unattached handle. -/
theorem frameAttached_idempotent_witness :
    sSubBound.is_attached = false ∧
    FrameAttached (FrameAttached sSubBound).1 =
      ((FrameAttached sSubBound).1, ({} : Effect)) ∧
    (FrameAttached sSubBound).1.queued_actions = [] :=
  ⟨rfl, (frameAttached_idempotent sSubBound).1,
    (frameAttached_idempotent sSubBound).2 rfl⟩

/-- Claim C10: `Detach` leaves the snapshot fields untouched, so
`GetIdentifier`, `GetURL`, `GetName`, `IsFocused` and `IsMain` keep returning
their pre-detach values. -/
theorem detach_preserves_snapshot (s : FrameState) :
    GetIdentifier (Detach s).1 = GetIdentifier s ∧
    GetURL (Detach s).1 = GetURL s ∧
    GetName (Detach s).1 = GetName s ∧
    IsFocused (Detach s).1 = IsFocused s ∧
    IsMain (Detach s).1 = IsMain s := by
  simp [Detach, GetIdentifier, GetURL, GetName, IsFocused, IsMain]

/-- Claim C9: when the handle is attached with a bound frame host but the peer
connection is unbound and cannot resolve, `SendToRenderFrame` discards the
action silently — the state (and in particular the queue) is unchanged and
nothing is delivered or reported. -/
theorem attached_unresolved_peer_drops (s : FrameState)
    (r : RenderFrameHost) (a : Action) (h1 : s.is_attached = true)
    (h2 : s.render_frame_host = some r) (h3 : s.render_frame_bound = false)
    (h4 : r.hasRemoteInterfaces = false) :
    SendToRenderFrame s a = (s, { issued := [a] }) := by
  cases s with
  | mk imf fid pfid bi foc url name rfh rfb att qa =>
    simp only at h1 h2 h3
    subst h1
    subst h3
    subst h2
    simp [SendToRenderFrame, GetRenderFrame, h4]

/-- Witness for C9 at a concrete attached handle with a dead peer. -/
theorem attached_unresolved_peer_drops_witness :
    sNoPeerAttached.is_attached = true ∧
    sNoPeerAttached.render_frame_host = some hostNoPeer ∧
    SendToRenderFrame sNoPeerAttached (Action.sendCommand "Copy") =
      (sNoPeerAttached, { issued := [Action.sendCommand "Copy"] }) :=
  ⟨rfl, rfl,
    attached_unresolved_peer_drops sNoPeerAttached hostNoPeer
      (Action.sendCommand "Copy") rfl rfl rfl rfl⟩

/-- Claim C6: an empty script body is never dispatched; a non-empty body is
issued to the dispatch core with the start line replaced by 1 when it is ≤ 0
and unchanged when it is > 0. -/
theorem sendJavaScript_normalizes_startLine (s : FrameState)
    (jsCode scriptUrl : String) (startLine : Int) :
    (jsCode = "" →
      SendJavaScript s jsCode scriptUrl startLine = (s, ({} : Effect))) ∧
    (jsCode ≠ "" → startLine ≤ 0 →
      (SendJavaScript s jsCode scriptUrl startLine).2.issued =
        [Action.sendJavaScript jsCode scriptUrl 1]) ∧
    (jsCode ≠ "" → 0 < startLine →
      (SendJavaScript s jsCode scriptUrl startLine).2.issued =
        [Action.sendJavaScript jsCode scriptUrl startLine]) := by
  refine ⟨fun h => by simp [SendJavaScript, h], fun h hl => ?_,
    fun h hl => ?_⟩
  · simp [SendJavaScript, h, hl, issued_sendToRenderFrame]
  · have hl2 : ¬ startLine ≤ 0 := by omega
    simp [SendJavaScript, h, hl2, issued_sendToRenderFrame]

/-- Witness for C6: a non-empty script with start line -5 is issued with start
line 1. -/
theorem sendJavaScript_normalizes_startLine_witness :
    ("1+1" : String) ≠ "" ∧ (-5 : Int) ≤ 0 ∧
    (SendJavaScript sSubBound "1+1" "about:blank" (-5)).2.issued =
      [Action.sendJavaScript "1+1" "about:blank" 1] :=
  ⟨by decide, by decide,
    (sendJavaScript_normalizes_startLine sSubBound "1+1" "about:blank"
        (-5)).2.1 (by decide) (by decide)⟩

/-- Counterexample to C4 as stated: for a bound main-frame handle the
externally reported identifier (`GetIdentifier`, the public CefFrame method)
is the real packed id, not the `kMainFrameId` sentinel. -/
theorem getIdentifier_main_not_sentinel :
    IsMain sMainBound = true ∧ GetIdentifier sMainBound ≠ kMainFrameId := by
  decide

/-- Claim C4 (amended): for a main-frame handle, the internal frame id used
for dispatch decisions (`GetFrameId`) is always the `kMainFrameId = -1`
sentinel regardless of the bound host, while `GetIdentifier` reports the real
packed (process-id, routing-id) identifier, which is never the sentinel. -/
theorem getFrameId_main_sentinel (s : FrameState) (host : RenderFrameHost)
    (s1 : FrameState) (hm : s.is_main_frame = true)
    (hs : SetRenderFrameHost s host = some s1) :
    GetFrameId s1 = kMainFrameId ∧
    GetIdentifier s1 = MakeFrameId host.process_id host.routing_id ∧
    GetIdentifier s1 ≠ kMainFrameId := by
  unfold SetRenderFrameHost at hs
  cases hb : s.browser_info with
  | none => rw [hb] at hs; exact absurd hs (by simp)
  | some bi =>
    rw [hb] at hs
    simp only [Option.some.injEq] at hs
    subst hs
    refine ⟨by simp [GetFrameId, hm], rfl, ?_⟩
    simp only [GetIdentifier, MakeFrameId, kMainFrameId]
    intro hc
    rw [Int.ofNat_eq_natCast] at hc
    omega

/-- Witness for the amended C4 at a concrete binding. -/
theorem getFrameId_main_sentinel_witness :
    sPreMain.is_main_frame = true ∧
    SetRenderFrameHost sPreMain hostMain = some sMainRebound ∧
    GetFrameId sMainRebound = kMainFrameId ∧
    GetIdentifier sMainRebound =
      MakeFrameId hostMain.process_id hostMain.routing_id ∧
    GetIdentifier sMainRebound ≠ kMainFrameId := by
  refine ⟨rfl, by decide, ?_⟩
  exact getFrameId_main_sentinel sPreMain hostMain sMainRebound rfl (by decide)

/-- Claim C8: the `DidStopLoading` load-finish notification is dispatched
onward only from the highest renderer-process-local frame: with a bound frame
host whose parent shares its renderer process it is suppressed entirely, and
with a parent in a different process (or no parent) it is issued to the
dispatch core. -/
theorem didStopLoading_suppression (s : FrameState) (host : RenderFrameHost)
    (h : s.render_frame_host = some host) :
    (sameProcessAsParent host = true →
      MaybeSendDidStopLoading s = (s, ({} : Effect))) ∧
    (sameProcessAsParent host = false →
      (MaybeSendDidStopLoading s).2.issued = [Action.didStopLoading]) := by
  constructor
  · intro hp; simp [MaybeSendDidStopLoading, h, hp]
  · intro hp; simp [MaybeSendDidStopLoading, h, hp, issued_sendToRenderFrame]

/-- Witness for C8: a sub-frame whose parent is in another process forwards
the notification. -/
theorem didStopLoading_suppression_witness :
    sSubBound.render_frame_host = some hostSub ∧
    sameProcessAsParent hostSub = false ∧
    (MaybeSendDidStopLoading sSubBound).2.issued = [Action.didStopLoading] :=
  ⟨rfl, rfl, (didStopLoading_suppression sSubBound hostSub rfl).2 rfl⟩

theorem sendAll_queues (r : RenderFrameHost) :
    ∀ (as : List Action) (s : FrameState), s.render_frame_host = some r →
      s.is_attached = false →
      sendAll s as =
        ({ s with queued_actions := s.queued_actions ++ as }, []) := by
  intro as
  induction as with
  | nil =>
    intro s h1 h2
    simp [sendAll]
  | cons a rest ih =>
    intro s h1 h2
    have hstep := sendToRenderFrame_unattached s r a h1 h2
    have ih2 := ih { s with queued_actions := s.queued_actions ++ [a] }
      (by simp [h1]) (by simp [h2])
    simp only [sendAll, hstep, ih2]
    simp

/-- Claim C1: while a frame host is bound and the frame is unattached, a
sequence of actions issued through `SendToRenderFrame` delivers nothing and is
appended to the pending queue in call order; a subsequent `FrameAttached`
whose peer connection resolves delivers exactly the queued actions, in issue
order, and empties the queue (so each is delivered exactly once). -/
theorem queuedActions_drain_in_order (s : FrameState) (r : RenderFrameHost)
    (as : List Action) (h1 : s.render_frame_host = some r)
    (h2 : s.is_attached = false)
    (h3 : s.render_frame_bound = true ∨ r.hasRemoteInterfaces = true) :
    sendAll s as = ({ s with queued_actions := s.queued_actions ++ as }, []) ∧
    (FrameAttached (sendAll s as).1).2.delivered =
      s.queued_actions ++ as ∧
    (FrameAttached (sendAll s as).1).1.queued_actions = [] := by
  have hq := sendAll_queues r as s h1 h2
  refine ⟨hq, ?_, ?_⟩
  · rw [hq]
    rcases h3 with h3 | h3 <;>
      simp [FrameAttached, GetRenderFrame, h1, h2, h3]
  · rw [hq]
    simp [FrameAttached, GetRenderFrame, h1, h2]

/-- Witness for C1 at a concrete unattached sub-frame with three actions. -/
theorem queuedActions_drain_in_order_witness :
    sSubBound.render_frame_host = some hostSub ∧
    sSubBound.is_attached = false ∧
    hostSub.hasRemoteInterfaces = true ∧
    sendAll sSubBound actionsC =
      ({ sSubBound with queued_actions := actionsC }, []) ∧
    (FrameAttached (sendAll sSubBound actionsC).1).2.delivered = actionsC ∧
    (FrameAttached (sendAll sSubBound actionsC).1).1.queued_actions = [] := by
  have h := queuedActions_drain_in_order sSubBound hostSub actionsC rfl rfl
    (Or.inr rfl)
  exact ⟨rfl, rfl, rfl, h.1, h.2.1, h.2.2⟩

theorem queueInv_send (s : FrameState) (a : Action)
    (ih : QueueInvariant s) :
    QueueInvariant (SendToRenderFrame s a).1 := by
  unfold SendToRenderFrame
  cases h : s.render_frame_host with
  | none => exact ih
  | some host =>
    by_cases ha : s.is_attached
    · intro h2
      simpa [GetRenderFrame, ha] using ih ha
    · intro h2
      simp [ha] at h2

theorem queueInv_attach (s : FrameState) (ih : QueueInvariant s) :
    QueueInvariant (FrameAttached s).1 := by
  unfold FrameAttached
  by_cases h : s.is_attached
  · simpa [h] using ih
  · intro h2
    simp [h]

theorem queueInv_detach (s : FrameState) :
    QueueInvariant (Detach s).1 :=
  fun _ => rfl

theorem queueInv_setRFH (s : FrameState) (host : RenderFrameHost)
    (s1 : FrameState) (h : SetRenderFrameHost s host = some s1)
    (ih : QueueInvariant s) : QueueInvariant s1 := by
  unfold SetRenderFrameHost at h
  cases hb : s.browser_info with
  | none => rw [hb] at h; exact absurd h (by simp)
  | some bi =>
    rw [hb] at h
    simp only [Option.some.injEq] at h
    subst h
    intro h2
    simp only at h2
    exact ih h2

theorem queueInv_refresh (s : FrameState) (unique_name : String)
    (ih : QueueInvariant s) :
    QueueInvariant (RefreshAttributes s unique_name) := by
  unfold RefreshAttributes
  cases h : s.render_frame_host with
  | none => exact ih
  | some host =>
    intro h2
    simp only at h2
    exact ih h2

/-- Claim C7: in every reachable state of the handle, the pending-action
queue is non-empty only while `is_attached` is false — the operations can
never leave a non-empty queue on an attached handle. -/
theorem queue_nonempty_only_unattached (s : FrameState)
    (h : Reachable s) : QueueInvariant s := by
  induction h with
  | preBinding bi is_main_frame parent_frame_id => intro _; rfl
  | bound bi host => intro _; rfl
  | step hr happ ih =>
    rename_i s0 s1 e op
    cases op with
    | sendToRenderFrame a =>
      simp only [applyOp, Option.some.injEq] at happ
      have h2 := queueInv_send s0 a ih
      rw [happ] at h2
      exact h2
    | frameAttached =>
      simp only [applyOp, Option.some.injEq] at happ
      have h2 := queueInv_attach s0 ih
      rw [happ] at h2
      exact h2
    | detach =>
      simp only [applyOp, Option.some.injEq] at happ
      have h2 := queueInv_detach s0
      rw [happ] at h2
      exact h2
    | setRenderFrameHost host =>
      simp only [applyOp] at happ
      cases hs : SetRenderFrameHost s0 host with
      | none => rw [hs] at happ; exact absurd happ (by simp)
      | some s2 =>
        rw [hs] at happ
        injection happ with happ2
        have hs2 : s2 = s1 := congrArg Prod.fst happ2
        rw [← hs2]
        exact queueInv_setRFH s0 host s2 hs ih
    | setFocused focused =>
      simp only [applyOp, Option.some.injEq, Prod.mk.injEq] at happ
      rw [← happ.1]
      intro h2
      exact ih h2
    | refreshAttributes unique_name =>
      simp only [applyOp, Option.some.injEq, Prod.mk.injEq] at happ
      rw [← happ.1]
      exact queueInv_refresh s0 unique_name ih

/-- Witness for C7 at a concrete reachable state: a bound sub-frame after one
queued action and an attach. -/
theorem queue_nonempty_only_unattached_witness :
    QueueInvariant
      (FrameAttached
        (SendToRenderFrame sSubBound (Action.sendCommand "Copy")).1).1 :=
  queue_nonempty_only_unattached _
    (@Reachable.step
      (SendToRenderFrame sSubBound (Action.sendCommand "Copy")).1
      (FrameAttached
        (SendToRenderFrame sSubBound (Action.sendCommand "Copy")).1).1
      (FrameAttached
        (SendToRenderFrame sSubBound (Action.sendCommand "Copy")).1).2
      Op.frameAttached
      (@Reachable.step sSubBound
        (SendToRenderFrame sSubBound (Action.sendCommand "Copy")).1
        (SendToRenderFrame sSubBound (Action.sendCommand "Copy")).2
        (Op.sendToRenderFrame (Action.sendCommand "Copy"))
        (Reachable.bound biC hostSub) rfl)
      rfl)

theorem detached_Detach (s : FrameState) : detachedState (Detach s).1 :=
  ⟨rfl, rfl, rfl⟩

theorem detached_applyOp {s s1 : FrameState} {e : Effect} (op : Op)
    (hd : detachedState s) (h : applyOp s op = some (s1, e)) :
    detachedState s1 := by
  obtain ⟨hb, hr, hf⟩ := hd
  cases op with
  | sendToRenderFrame a =>
    simp only [applyOp, Option.some.injEq] at h
    rw [SendToRenderFrame, hr] at h
    have hs : s = s1 := congrArg Prod.fst h
    rw [← hs]
    exact ⟨hb, hr, hf⟩
  | frameAttached =>
    simp only [applyOp, Option.some.injEq] at h
    by_cases hA : s.is_attached
    · rw [FrameAttached, if_pos hA] at h
      have hs : s = s1 := congrArg Prod.fst h
      rw [← hs]
      exact ⟨hb, hr, hf⟩
    · rw [FrameAttached, if_neg hA] at h
      have hs := congrArg Prod.fst h
      simp only at hs
      rw [← hs]
      refine ⟨?_, ?_, ?_⟩ <;> simp [GetRenderFrame, hb, hr, hf]
  | detach =>
    simp only [applyOp, Option.some.injEq] at h
    have hs : (Detach s).1 = s1 := congrArg Prod.fst h
    rw [← hs]
    exact detached_Detach s
  | setRenderFrameHost host =>
    simp only [applyOp, SetRenderFrameHost, hb] at h
    exact absurd h (by simp)
  | setFocused focused =>
    simp only [applyOp, Option.some.injEq] at h
    have hs : SetFocused s focused = s1 := congrArg Prod.fst h
    rw [← hs]
    exact ⟨hb, hr, hf⟩
  | refreshAttributes unique_name =>
    simp only [applyOp, Option.some.injEq] at h
    have hs : RefreshAttributes s unique_name = s1 := congrArg Prod.fst h
    rw [← hs, RefreshAttributes, hr]
    exact ⟨hb, hr, hf⟩

theorem detached_runOps :
    ∀ (ops : List Op) (s s1 : FrameState), detachedState s →
      runOps s ops = some s1 → detachedState s1 := by
  intro ops
  induction ops with
  | nil =>
    intro s s1 hd h
    simp only [runOps, Option.some.injEq] at h
    rw [← h]
    exact hd
  | cons op rest ih =>
    intro s s1 hd h
    rw [runOps] at h
    cases ha : applyOp s op with
    | none => rw [ha] at h; exact absurd h (by simp)
    | some se =>
      rw [ha] at h
      exact ih se.1 s1 (detached_applyOp op hd (by rw [ha])) h

/-- Claim C2: `Detach` discards every queued action without delivering it,
makes `IsValid` false, and this is permanent — after any further sequence of
(non-crashing) operations `IsValid` is still false and every peer-directed
`SendToRenderFrame` leaves the state unchanged, delivering nothing and making
no browser call. -/
theorem detach_permanently_invalid (s : FrameState) :
    (Detach s).2 = ({} : Effect) ∧
    (Detach s).1.queued_actions = [] ∧
    IsValid (Detach s).1 = false ∧
    ∀ (ops : List Op) (s1 : FrameState),
      runOps (Detach s).1 ops = some s1 →
      IsValid s1 = false ∧
      ∀ a, SendToRenderFrame s1 a = (s1, { issued := [a] }) := by
  refine ⟨rfl, rfl, rfl, ?_⟩
  intro ops s1 h
  obtain ⟨hb, hr, hf⟩ :=
    detached_runOps ops (Detach s).1 s1 (detached_Detach s) h
  constructor
  · simp [IsValid, GetBrowserHostBase, hb]
  · intro a
    simp [SendToRenderFrame, hr]

/-- Witness for C2: the detached sub-frame handle after a further attach
notification is still invalid and drops actions. -/
theorem detach_permanently_invalid_witness :
    runOps (Detach sSubBound).1
        [Op.frameAttached,
         Op.sendToRenderFrame (Action.sendCommand "Copy")] =
      some sDetachedStepped ∧
    IsValid sDetachedStepped = false ∧
    SendToRenderFrame sDetachedStepped (Action.sendCommand "Copy") =
      (sDetachedStepped, { issued := [Action.sendCommand "Copy"] }) := by
  have h := (detach_permanently_invalid sSubBound).2.2.2
    [Op.frameAttached, Op.sendToRenderFrame (Action.sendCommand "Copy")]
    sDetachedStepped (by decide)
  exact ⟨by decide, h.1, h.2 (Action.sendCommand "Copy")⟩

/-- Claim C5: `LoadURLWithExtras` routes a `kMainFrameId` frame through the
browser's `LoadMainFrameURL` (when the browser is live) and never through the
peer-dispatch core; routes a known frame id above the sentinel through the
dispatch core with the URL-normalized request payload; and silently rejects a
frame id below the sentinel with no dispatch and no state change. -/
theorem loadURL_routing (fixup : String → Option String) (s : FrameState)
    (url referrer : String) (transition : Nat) (extra_headers : String) :
    (GetFrameId s = kMainFrameId →
      (LoadURLWithExtras fixup s url referrer transition
        extra_headers).2.issued = [] ∧
      (LoadURLWithExtras fixup s url referrer transition
        extra_headers).2.delivered = [] ∧
      (IsValid s = true →
        (LoadURLWithExtras fixup s url referrer transition
          extra_headers).2.browserCalls =
          [BrowserCall.loadMainFrameURL url referrer transition
            extra_headers])) ∧
    (kMainFrameId < GetFrameId s →
      ∀ u, fixup url = some u →
        (LoadURLWithExtras fixup s url referrer transition
          extra_headers).2.issued =
          [Action.loadRequest
            { url := u, referrer := referrer, headers := extra_headers }]) ∧
    (GetFrameId s < kMainFrameId →
      LoadURLWithExtras fixup s url referrer transition extra_headers =
        (s, ({} : Effect))) := by
  refine ⟨fun h => ?_, fun h u hu => ?_, fun h => ?_⟩
  · have hlt : ¬ GetFrameId s < kMainFrameId := by omega
    unfold LoadURLWithExtras
    rw [if_neg hlt, if_pos h]
    cases hB : GetBrowserHostBase s with
    | some b => simp [hB]
    | none => simp [hB, IsValid]
  · have hlt : ¬ GetFrameId s < kMainFrameId := by omega
    have hne : GetFrameId s ≠ kMainFrameId := by omega
    unfold LoadURLWithExtras LoadRequestParams
    rw [if_neg hlt, if_neg hne]
    simp [hu, issued_sendToRenderFrame]
  · unfold LoadURLWithExtras
    rw [if_pos h]

/-- Witness for C5 at a concrete bound main frame. -/
theorem loadURL_routing_witness :
    GetFrameId sMainBound = kMainFrameId ∧
    IsValid sMainBound = true ∧
    (LoadURLWithExtras fixupC sMainBound "https://example.com" ""
      kPageTransitionExplicit "").2.issued = [] ∧
    (LoadURLWithExtras fixupC sMainBound "https://example.com" ""
      kPageTransitionExplicit "").2.delivered = [] ∧
    (LoadURLWithExtras fixupC sMainBound "https://example.com" ""
      kPageTransitionExplicit "").2.browserCalls =
      [BrowserCall.loadMainFrameURL "https://example.com" ""
        kPageTransitionExplicit ""] := by
  have h := (loadURL_routing fixupC sMainBound "https://example.com" ""
    kPageTransitionExplicit "").1 (by decide)
  exact ⟨by decide, rfl, h.1, h.2.1, h.2.2 rfl⟩

end Cef
